import Mathlib

set_option maxHeartbeats 1000000

/-!
Shallow embedding of `mcping.py` (a Minecraft server ping tool) and proofs about
its VarInt codec, packet framer, handshake/status client and status-response parser.

Conventions of the embedding:
- Python `bytes` values are `List Nat` (each entry a byte value).
- A live socket's incoming data is a `List (List Nat)`: the list of chunks that
  successive `recv` calls deliver; an exhausted stream yields `[]` from `recv`,
  exactly as a closed Python socket returns `b""`.
- Python exceptions are modelled by `Except PyErr`; loops whose termination
  depends on the network are given explicit fuel, and `none` means the loop has
  not finished within that fuel (for any fuel: the code does not terminate).
- Machine integers are `Nat`/`Int` with explicit `% 2^w` where the source
  truncates (`struct.pack`/`struct.unpack`).
-/

/-- Python exception classes raised by the source. Both `overflow` and
`hostTooLarge` are `OverflowError` in Python; they are distinguished here by
their message ("VarInt too large" vs "Hostname too large: >32767 bytes in size"). -/
inductive PyErr where
  | overflow
  | hostTooLarge
  | typeError
  | indexError
  | keyError
  | runtimeError
  | unicodeError
  | jsonError
  deriving DecidableEq

/-- Loop of `encode_varint` (mcping.py lines 86-95): `while True: part = number & 0x7f;
number >>= 7; ...`. The loop runs at most once per division of `number` by 128, so
fuel `number + 1` always suffices (see `encodeLoop_fuel_irrel`); it is passed
explicitly only to make the definition structurally recursive. -/
def encodeLoop (fuel number : Nat) : List Nat :=
  match fuel with
  | 0 => []
  | fuel + 1 =>
    if number / 128 = 0 then [number &&& 127]
    else ((number &&& 127) ||| 128) :: encodeLoop fuel (number / 128)

/-- Embeds `encode_varint` (mcping.py lines 74-95). The line
`number = struct.unpack(">I", struct.pack(">i", number))[0]` reinterprets the
int32 as a uint32, i.e. takes `number mod 2^32` (for inputs in int32 range,
the only inputs the program uses; outside that range the source raises
`struct.error`). -/
def encode_varint (number : Int) : List Nat :=
  let u := (number % 4294967296).toNat
  encodeLoop (u + 1) u

/-- Loop of `decode_varint` for a `bytes` argument (mcping.py lines 54-67):
`byte = sock[0]; sock = sock[1:]` (an empty buffer raises `IndexError`),
`value = byte & 0x7f`, `number |= value << (7*n_bytes)`, `n_bytes += 1`, and
`if n_bytes > 4: raise OverflowError("VarInt too large")` BEFORE the loop
condition `(byte & 0x80) != 0` is tested again — so reading any 5th byte raises,
even one with the continuation bit clear. -/
def decodeBufLoop (nBytes acc : Nat) : List Nat → Except PyErr (Nat × List Nat)
  | [] => .error .indexError
  | b :: rest =>
    let value := b &&& 127
    let acc2 := acc ||| (value <<< (7 * nBytes))
    if nBytes + 1 > 4 then .error .overflow
    else if b &&& 128 = 0 then .ok (acc2, rest)
    else decodeBufLoop (nBytes + 1) acc2 rest

/-- Embeds `decode_varint` on an in-memory buffer (the `isinstance(sock, bytes)` branch):
returns the number together with the unconsumed rest of the buffer. The decoded
number is returned as-is (a non-negative Python int); the source performs no
signed reinterpretation. -/
def decode_varint (s : List Nat) : Except PyErr (Nat × List Nat) :=
  decodeBufLoop 0 0 s

/-- Models `sock.recv(n)` on the chunked-stream model: returns (up to `n` bytes of) the
first pending chunk, or `[]` (Python `b""`) if the stream is exhausted. -/
def sockRecv (n : Nat) : List (List Nat) → List Nat × List (List Nat)
  | [] => ([], [])
  | c :: rest => if c.length ≤ n then (c, rest) else (c.take n, c.drop n :: rest)

/-- Loop of `decode_varint` for a socket argument: `byte = ord(sock.recv(1))`
(`ord(b"")` on a closed stream raises `TypeError`). `remaining` counts the reads
still allowed before `n_bytes > 4` fires, so it starts at 4 and reaching 0 on a
5th read raises `OverflowError` regardless of that byte's continuation bit,
mirroring the check order of the source; `shift` is `7 * n_bytes`. -/
def decodeSockLoop (remaining shift acc : Nat) (s : List (List Nat)) :
    Except PyErr (Nat × List (List Nat)) :=
  match sockRecv 1 s with
  | ([], _) => .error .typeError
  | (b :: _, s2) =>
    let acc2 := acc ||| ((b &&& 127) <<< shift)
    match remaining with
    | 0 => .error .overflow
    | r + 1 => if b &&& 128 = 0 then .ok (acc2, s2) else decodeSockLoop r (shift + 7) acc2 s2

/-- Embeds `decode_varint` reading from a socket: returns the number and advances the
stream cursor. -/
def decode_varint_sock (s : List (List Nat)) : Except PyErr (Nat × List (List Nat)) :=
  decodeSockLoop 4 0 0 s

/-- Embeds `write_packet(sock, data, packet_id)` (mcping.py lines 98-109):
`data = encode_varint(packet_id) + data; length = encode_varint(len(data));
sock.send(length + data)`. The value is the byte string passed to `sock.send`. -/
def write_packet (data : List Nat) (packetId : Int) : List Nat :=
  let data2 := encode_varint packetId ++ data
  encode_varint (data2.length : Int) ++ data2

/-- Payload loop of `read_packet` (mcping.py lines 122-124):
`data = b""; while len(data) < data_length: data += sock.recv(data_length - len(data))`.
`dataLength` is an `Int` because the Python subtraction can go negative.
`none` means the loop did not finish within `fuel` iterations; on an exhausted
stream `recv` returns `b""` forever and the loop never finishes for any fuel. -/
def recvLoop (fuel : Nat) (dataLength : Int) (data : List Nat) (s : List (List Nat)) :
    Option (List Nat × List (List Nat)) :=
  if (data.length : Int) < dataLength then
    match fuel with
    | 0 => none
    | fuel + 1 =>
      let r := sockRecv (dataLength - (data.length : Int)).toNat s
      recvLoop fuel dataLength (data ++ r.1) r.2
  else some (data, s)

/-- Embeds `read_packet(sock)` (mcping.py lines 112-126): decode the packet length,
decode the packet id, compute `data_length = packet_length - len(encode_varint(packet_id))`,
then run the recv loop. Returns the packet id, its data and the remaining stream. -/
def read_packet (fuel : Nat) (s : List (List Nat)) :
    Option (Except PyErr ((Nat × List Nat) × List (List Nat))) :=
  match decode_varint_sock s with
  | .error e => some (.error e)
  | .ok (packetLength, s1) =>
    match decode_varint_sock s1 with
    | .error e => some (.error e)
    | .ok (packetId, s2) =>
      let dataLength : Int := (packetLength : Int) - ((encode_varint (packetId : Int)).length : Int)
      match recvLoop fuel dataLength [] s2 with
      | none => none
      | some (data, s3) => some (.ok ((packetId, data), s3))

/-- Number of bytes of the UTF-8 encoding of one code point. -/
def utf8Len (c : Nat) : Nat :=
  if c < 128 then 1 else if c < 2048 then 2 else if c < 65536 then 3 else 4

/-- UTF-8 encoding of one code point. -/
def utf8Bytes (c : Nat) : List Nat :=
  if c < 128 then [c]
  else if c < 2048 then [192 + c / 64, 128 + c % 64]
  else if c < 65536 then [224 + c / 4096, 128 + c / 64 % 64, 128 + c % 64]
  else [240 + c / 262144, 128 + c / 4096 % 64, 128 + c / 64 % 64, 128 + c % 64]

/-- Python `str.encode("UTF-8")` over a string given as its code points. -/
def utf8Encode (s : List Nat) : List Nat := (s.map utf8Bytes).flatten

/-- Number of UTF-8 bytes of a string given as its code points (distinct from
`s.length`, the number of characters, which is what `len` returns in Python). -/
def utf8ByteLen (s : List Nat) : Nat := (s.map utf8Len).sum

/-- Whether a byte is a UTF-8 continuation byte. -/
def isCont (b : Nat) : Bool := 128 ≤ b && b ≤ 191

/-- Model of Python `bytes.decode()` (UTF-8, strict): bytes to code points,
`none` on a malformed sequence (`UnicodeDecodeError`). -/
def pyDecodeUtf8 : List Nat → Option (List Nat)
  | [] => some []
  | b :: rest =>
    if b < 128 then (pyDecodeUtf8 rest).map (b :: ·)
    else if b < 194 then none
    else if b < 224 then
      match rest with
      | c1 :: rest2 =>
        if isCont c1 then (pyDecodeUtf8 rest2).map (((b - 192) * 64 + (c1 - 128)) :: ·) else none
      | [] => none
    else if b < 240 then
      match rest with
      | c1 :: c2 :: rest3 =>
        if isCont c1 && isCont c2 then
          (pyDecodeUtf8 rest3).map (((b - 224) * 4096 + (c1 - 128) * 64 + (c2 - 128)) :: ·)
        else none
      | _ => none
    else if b < 245 then
      match rest with
      | c1 :: c2 :: c3 :: rest4 =>
        if isCont c1 && isCont c2 && isCont c3 then
          (pyDecodeUtf8 rest4).map
            (((b - 240) * 262144 + (c1 - 128) * 4096 + (c2 - 128) * 64 + (c3 - 128)) :: ·)
        else none
      | _ => none
    else none

/-- JSON values as produced by Python `json.loads`: strings are code-point lists,
objects keep their key/value pairs in insertion order (lookup takes the last
binding of a key, as a Python dict built by the parser would). -/
inductive JVal where
  | jnull
  | jbool (b : Bool)
  | jnum (n : Int)
  | jstr (s : List Nat)
  | jarr (xs : List JVal)
  | jobj (fields : List (List Nat × JVal))

/-- Code points of a Lean string literal, used to write byte/character data. -/
def pystr (s : String) : List Nat := s.data.map Char.toNat

/-- Skip JSON whitespace. -/
def skipWs : List Nat → List Nat
  | c :: rest => if c = 32 || c = 9 || c = 10 || c = 13 then skipWs rest else c :: rest
  | [] => []

/-- Consume a maximal run of decimal digits, accumulating their value. -/
def takeDigits : List Nat → Nat → Nat × List Nat
  | c :: rest, acc => if 48 ≤ c && c ≤ 57 then takeDigits rest (acc * 10 + (c - 48)) else (acc, c :: rest)
  | [], acc => (acc, [])

/-- Consume a JSON string body up to the closing quote. Escape sequences
(backslash) are not needed for any input considered here and make the parse fail. -/
def takeStr : List Nat → Option (List Nat × List Nat)
  | c :: rest => if c = 34 then some ([], rest)
      else if c = 92 then none
      else (takeStr rest).map (fun r => (c :: r.1, r.2))
  | [] => none

/-- Parser mode: a single value, the elements of an array, or the pairs of an
object (the modes of a recursive-descent JSON parser, folded into one function
so that the recursion is structural on the fuel). -/
inductive JMode where
  | value
  | elems (acc : List JVal)
  | pairs (acc : List (List Nat × JVal))

/-- Parser result corresponding to each `JMode`. -/
inductive JOut where
  | val (v : JVal)
  | arr (xs : List JVal)
  | obj (fs : List (List Nat × JVal))

/-- Recursive-descent JSON parser modelling Python `json.loads` on the JSON
fragment the protocol uses (objects, arrays, strings without escapes, integers,
booleans, null). Codes: 123 `{`, 125 `}`, 91 `[`, 93 `]`, 34 quote, 44 comma,
58 colon, 45 minus. Each recursive call consumes fuel; `jsonLoads` supplies
enough fuel that the parser is never cut short. -/
def jsonP : Nat → JMode → List Nat → Option (JOut × List Nat)
  | 0, _, _ => none
  | fuel + 1, .value, s =>
    match skipWs s with
    | 123 :: rest =>
      match skipWs rest with
      | 125 :: rest2 => some (.val (.jobj []), rest2)
      | _ =>
        match jsonP fuel (.pairs []) rest with
        | some (.obj fs, rest2) => some (.val (.jobj fs), rest2)
        | _ => none
    | 91 :: rest =>
      match skipWs rest with
      | 93 :: rest2 => some (.val (.jarr []), rest2)
      | _ =>
        match jsonP fuel (.elems []) rest with
        | some (.arr xs, rest2) => some (.val (.jarr xs), rest2)
        | _ => none
    | 34 :: rest => (takeStr rest).map (fun r => (.val (.jstr r.1), r.2))
    | 116 :: 114 :: 117 :: 101 :: rest => some (.val (.jbool true), rest)
    | 102 :: 97 :: 108 :: 115 :: 101 :: rest => some (.val (.jbool false), rest)
    | 110 :: 117 :: 108 :: 108 :: rest => some (.val .jnull, rest)
    | 45 :: c :: rest =>
      if 48 ≤ c && c ≤ 57 then
        match takeDigits (c :: rest) 0 with
        | (n, rest2) => some (.val (.jnum (-(n : Int))), rest2)
      else none
    | c :: rest =>
      if 48 ≤ c && c ≤ 57 then
        match takeDigits (c :: rest) 0 with
        | (n, rest2) => some (.val (.jnum (n : Int)), rest2)
      else none
    | [] => none
  | fuel + 1, .elems acc, s =>
    match jsonP fuel .value s with
    | some (.val v, rest) =>
      match skipWs rest with
      | 44 :: rest2 => jsonP fuel (.elems (acc ++ [v])) rest2
      | 93 :: rest2 => some (.arr (acc ++ [v]), rest2)
      | _ => none
    | _ => none
  | fuel + 1, .pairs acc, s =>
    match skipWs s with
    | 34 :: rest =>
      match takeStr rest with
      | some (key, rest2) =>
        match skipWs rest2 with
        | 58 :: rest3 =>
          match jsonP fuel .value rest3 with
          | some (.val v, rest4) =>
            match skipWs rest4 with
            | 44 :: rest5 => jsonP fuel (.pairs (acc ++ [(key, v)])) rest5
            | 125 :: rest5 => some (.obj (acc ++ [(key, v)]), rest5)
            | _ => none
          | _ => none
        | _ => none
      | none => none
    | _ => none

/-- Python `json.loads`: parse one JSON value and require only whitespace after
it; `none` is `json.JSONDecodeError`. Every fuel decrement is accompanied by
consumed input, at most two decrements per input character, so `2*length + 2`
fuel never cuts the parse short. -/
def jsonLoads (s : List Nat) : Option JVal :=
  match jsonP (2 * s.length + 2) .value s with
  | some (.val v, rest) => if skipWs rest = [] then some v else none
  | _ => none

/-- Python dict lookup for an object built from parsed pairs: the last binding
of a key wins, `none` when the key is absent. -/
def dictGet (k : List Nat) (fields : List (List Nat × JVal)) : Option JVal :=
  fields.foldl (fun acc p => if p.1 = k then some p.2 else acc) none

/-- Python subscript `v[k]` with a string key: a dict lookup (`KeyError` when the
key is missing); subscripting any non-dict value with a string raises `TypeError`. -/
def getItem (v : JVal) (k : List Nat) : Except PyErr JVal :=
  match v with
  | .jobj fields =>
    match dictGet k fields with
    | some x => .ok x
    | none => .error .keyError
  | _ => .error .typeError

/-- Python truthiness of a JSON-derived value (`if self.player_count:`). -/
def pyTruthy : JVal → Bool
  | .jnull => false
  | .jbool b => b
  | .jnum n => n != 0
  | .jstr s => !s.isEmpty
  | .jarr xs => !xs.isEmpty
  | .jobj fields => !fields.isEmpty

/-- The attributes `_handle_response` sets on the `MinecraftPing` object
(mcping.py lines 201-210). The source stores whatever JSON values the lookups
produce, so the fields are `JVal`. -/
structure Status where
  description : JVal
  player_limit : JVal
  player_count : JVal
  players : List JVal
  version : JVal
  version_id : JVal
  icon : JVal

/-- Field extraction of `_handle_response` (mcping.py lines 201-210), in source
order: `status["description"]["text"]`, `status["players"]["max"]`,
`status["players"]["online"]`, then — only when the online count is truthy —
`[x["name"] for x in status["players"]["sample"]]` (omitting `sample` raises
`KeyError`), else an empty list; then `status["version"]["name"]`,
`status["version"]["protocol"]`, and `status.get("favicon", "")`. A raised
exception at any step aborts the rest, so each lookup is a `match` propagating
`.error`. -/
def extractStatus (status : JVal) : Except PyErr Status :=
  match getItem status (pystr "description") with
  | .error e => .error e
  | .ok dobj =>
  match getItem dobj (pystr "text") with
  | .error e => .error e
  | .ok dtext =>
  match getItem status (pystr "players") with
  | .error e => .error e
  | .ok pobj =>
  match getItem pobj (pystr "max") with
  | .error e => .error e
  | .ok pmax =>
  match getItem pobj (pystr "online") with
  | .error e => .error e
  | .ok ponline =>
  match (if pyTruthy ponline then
          match getItem pobj (pystr "sample") with
          | .error e => .error e
          | .ok (.jarr xs) => xs.mapM (fun x => getItem x (pystr "name"))
          | .ok _ => .error .typeError
         else .ok [] : Except PyErr (List JVal)) with
  | .error e => .error e
  | .ok players =>
  match getItem status (pystr "version") with
  | .error e => .error e
  | .ok vobj =>
  match getItem vobj (pystr "name") with
  | .error e => .error e
  | .ok vname =>
  match getItem vobj (pystr "protocol") with
  | .error e => .error e
  | .ok vproto =>
  let icon :=
    match status with
    | .jobj fields => (dictGet (pystr "favicon") fields).getD (.jstr [])
    | _ => .jstr []
  .ok { description := dtext, player_limit := pmax, player_count := ponline,
        players := players, version := vname, version_id := vproto, icon := icon }

/-- Embeds `_handle_response(data)` (mcping.py lines 191-210): decode the leading VarInt
from the buffer, raise `RuntimeError("Return data length mismatch")` unless the
rest has exactly that length, UTF-8-decode it, `json.loads` it, and extract the
status fields. -/
def handle_response (data : List Nat) : Except PyErr Status :=
  match decode_varint data with
  | .error e => .error e
  | .ok (len, rest) =>
    if rest.length ≠ len then .error .runtimeError
    else
      match pyDecodeUtf8 rest with
      | none => .error .unicodeError
      | some chars =>
        match jsonLoads chars with
        | none => .error .jsonError
        | some status => extractStatus status

/-- Models `struct.pack(">q", n)`: 8 bytes, big-endian, two's complement. -/
def int64be (n : Int) : List Nat :=
  let u := (n % 18446744073709551616).toNat
  [u / 72057594037927936 % 256, u / 281474976710656 % 256, u / 1099511627776 % 256,
   u / 4294967296 % 256, u / 16777216 % 256, u / 65536 % 256, u / 256 % 256, u % 256]

/-- Network operations performed by `ping`, in order: connection attempt, packet
send, packet read and close of the first connection (`A`), and the same for the
best-effort second connection (`B`). An event is recorded when the operation is
attempted. -/
inductive NetEvent where
  | connectA | sendA | recvA | closeA
  | connectB | sendB | recvB | closeB
  deriving DecidableEq

/-- The environment a single `ping` call runs against: whether each
`socket.create_connection` succeeds, the chunks each connection's socket
delivers, the successive `time.perf_counter()` readings (`clock 0` is taken
after the first ping packet is sent, `clock 1` and `clock 2` around the
second-connection read), and the successive `time.time_ns()` readings. -/
structure World where
  connect1 : Bool
  stream1 : List (List Nat)
  connect2 : Bool
  stream2 : List (List Nat)
  clock : Nat → Int
  times : Nat → Int

/-- The observable result of a completed `ping()` call: the returned pair
(`success`, presence of an error string) and the `latency` and status attributes
set on the object (`none` when an attribute was never assigned). -/
structure Outcome where
  success : Bool
  err : Option Unit
  latency : Option Int
  status : Option Status

/-- One iteration of the response loop (mcping.py lines 170-173):
`packet_id, data = read_packet(s); if packet_id == 0: self._handle_response(data)`.
Propagates errors, threads the stream and the (possibly re-assigned) status. -/
def readAndHandle (fuel : Nat) (st : Option Status) (s : List (List Nat)) :
    Option (Except PyErr (Option Status × List (List Nat))) :=
  match read_packet fuel s with
  | none => none
  | some (.error e) => some (.error e)
  | some (.ok ((pid, data), s2)) =>
    if pid = 0 then
      match handle_response data with
      | .error e => some (.error e)
      | .ok st2 => some (.ok (some st2, s2))
    else some (.ok (st, s2))

/-- Second half of `ping` (mcping.py lines 175-189): attempt a second connection
(`try: ... except: pass` — only this connection failure is blanket-suppressed);
on success send one ping packet, take `start = perf_counter()` (`clock 1`), read
one packet, take `end` (`clock 2`), record `latency = end - start`, close; then
`return True, None`. An error from `read_packet` on the open second connection
propagates. -/
def pingRest (fuel : Nat) (w : World) (st : Option Status) (tr : List NetEvent) :
    Option (Except PyErr Outcome × List NetEvent) :=
  let tr2 := tr ++ [.connectB]
  match w.connect2 with
  | true =>
    let _sent := write_packet (int64be (w.times 1)) 1
    let start := w.clock 1
    match read_packet fuel w.stream2 with
    | none => none
    | some (.error e) => some (.error e, tr2 ++ [.sendB, .recvB])
    | some (.ok _) =>
      let endt := w.clock 2
      some (.ok { success := true, err := none, latency := some (endt - start), status := st },
            tr2 ++ [.sendB, .recvB, .closeB])
  | false => some (.ok { success := true, err := none, latency := none, status := st }, tr2)

/-- Embeds `MinecraftPing.ping` (mcping.py lines 144-189). In source order: attempt
`socket.create_connection` (failure returns `(False, error-string)`); compute
`proto = encode_varint(-1)`; `if len(self.host) > 32767: raise OverflowError`
(note: `len` counts characters of the Python `str`, and the check runs after the
connection attempt); build and send the handshake packet
(`proto + encode_varint(len(host)) + host_utf8 + uint16_be(port) + encode_varint(1)`),
the empty status request, and a ping packet with a `time_ns` payload; take
`start = perf_counter()` (`clock 0`, never used afterwards); read two packets,
handling each packet with id 0 as a status response; close; then the
second-connection round (`pingRest`). The second component is the trace of
network operations performed. -/
def ping (fuel : Nat) (w : World) (host : List Nat) (port : Nat) :
    Option (Except PyErr Outcome × List NetEvent) :=
  match w.connect1 with
  | true =>
    if host.length > 32767 then some (.error .hostTooLarge, [.connectA])
    else
      let hostData := encode_varint (host.length : Int) ++ utf8Encode host
      let portData := [port / 256 % 256, port % 256]
      let _sent := write_packet (encode_varint (-1) ++ hostData ++ portData ++ encode_varint 1) 0
                   ++ write_packet [] 0 ++ write_packet (int64be (w.times 0)) 1
      let _start := w.clock 0
      let tr := [NetEvent.connectA, .sendA, .sendA, .sendA]
      match readAndHandle fuel none w.stream1 with
      | none => none
      | some (.error e) => some (.error e, tr ++ [.recvA])
      | some (.ok (st, s1)) =>
        match readAndHandle fuel st s1 with
        | none => none
        | some (.error e) => some (.error e, tr ++ [.recvA, .recvA])
        | some (.ok (st2, _)) => pingRest fuel w st2 (tr ++ [.recvA, .recvA, .closeA])
  | false =>
    some (.ok { success := false, err := some (), latency := none, status := none }, [.connectA])

/-! Concrete data used by the theorems below. -/

/-- The literal status JSON document from the specification's status-parsing
property (`\x7b` and `\x7d` are the braces). -/
def c9json : String := "\x7b\"description\":\x7b\"text\":\"Hi\"\x7d,\"players\":\x7b\"max\":20,\"online\":2,\"sample\":[\x7b\"name\":\"Alice\"\x7d,\x7b\"name\":\"Bob\"\x7d]\x7d,\"version\":\x7b\"name\":\"1.20\",\"protocol\":763\x7d\x7d"

/-- The literal status payload: a VarInt length prefix followed by the JSON bytes. -/
def c9data : List Nat := encode_varint ((pystr c9json).length : Int) ++ pystr c9json

/-- A well-formed pong packet (id 1, 8-byte payload) as a server would send it. -/
def pongPacket : List Nat := write_packet (int64be 0) 1

/-- A world whose server answers both connections with pong packets and whose
monotonic clock reads 0, 1, 2, ... -/
def wGood : World :=
  { connect1 := true, stream1 := [pongPacket ++ pongPacket], connect2 := true,
    stream2 := [pongPacket], clock := fun i => i, times := fun _ => 0 }

/-- Same world, but opening the second connection fails. -/
def wNoC2 : World := { wGood with connect2 := false }

/-- A world where the first connection succeeds but the server sends nothing,
and the second connection fails. -/
def wEmpty : World :=
  { connect1 := true, stream1 := [], connect2 := false, stream2 := [],
    clock := fun i => i, times := fun _ => 0 }

/-- A status document whose `players.online` is 2 but whose `players` object has
no `sample` key. -/
def c10doc1 : List (List Nat × JVal) :=
  [(pystr "description", .jobj [(pystr "text", .jstr (pystr "Hi"))]),
   (pystr "players", .jobj [(pystr "max", .jnum 20), (pystr "online", .jnum 2)])]

/-- A status document whose `players.online` is 0 and whose `sample` field holds
a non-list value (which must therefore never be touched). -/
def c10doc2 : List (List Nat × JVal) :=
  [(pystr "description", .jobj [(pystr "text", .jstr (pystr "Hi"))]),
   (pystr "players", .jobj [(pystr "max", .jnum 20), (pystr "online", .jnum 0),
                            (pystr "sample", .jnum 7)]),
   (pystr "version", .jobj [(pystr "name", .jstr (pystr "1.20")), (pystr "protocol", .jnum 763)])]

/-- Outcome of `ping` when both phases succeed but the second connection fails:
success with no latency. -/
def outW1 : Outcome := { success := true, err := none, latency := none, status := none }

/-- Trace of that run. -/
def trW1 : List NetEvent :=
  [.connectA, .sendA, .sendA, .sendA, .recvA, .recvA, .closeA, .connectB]

/-- Outcome of `ping` on `wGood`: success with latency `clock 2 - clock 1 = 1`. -/
def outW2 : Outcome := { success := true, err := none, latency := some 1, status := none }

/-- Trace of that run. -/
def trW2 : List NetEvent := trW1 ++ [.sendB, .recvB, .closeB]

/-! Claim theorems. -/

/-- Concrete evaluation of the encoder at 0. -/
theorem encode_varint_zero : encode_varint 0 = [0] := by decide

/-- Concrete evaluation of the encoder at 1. -/
theorem encode_varint_one : encode_varint 1 = [1] := by decide

/-- Concrete evaluation of the encoder at -1: the 5-byte two's-complement form. -/
theorem encode_varint_neg1 : encode_varint (-1) = [255, 255, 255, 255, 15] := by decide

/-- The fuel given to `encodeLoop` is irrelevant as long as it exceeds the input,
so `encode_varint` computes the full (unbounded) loop of the source. -/
theorem encodeLoop_fuel_irrel : ∀ (u f1 f2 : Nat), u < f1 → u < f2 →
    encodeLoop f1 u = encodeLoop f2 u := by
  intro u
  induction u using Nat.strong_induction_on with
  | _ u ih =>
    intro f1 f2 h1 h2
    match f1, f2 with
    | g1 + 1, g2 + 1 =>
      simp only [encodeLoop]
      by_cases hz : u / 128 = 0
      · simp [hz]
      · have hu : 128 ≤ u := by
          by_contra hc
          exact hz (Nat.div_eq_of_lt (by omega))
        have hlt : u / 128 < u := Nat.div_lt_self (by omega) (by omega)
        simp only [hz, if_false]
        rw [ih (u / 128) hlt g1 g2 (by omega) (by omega)]


/-- The bytes `write_packet` sends for packet id -1 with empty payload. -/
theorem write_packet_neg1_nil : write_packet [] (-1) = [5, 255, 255, 255, 255, 15] := by decide

set_option maxRecDepth 100000 in
/-- C9: parsing the literal status payload (VarInt length prefix followed by the
JSON document with description "Hi", players 2/20 with sample Alice and Bob, and
version 1.20 protocol 763) yields exactly the claimed fields, with the favicon
defaulting to the empty string. -/
theorem c9_status_parsing_literal :
    handle_response c9data =
      .ok { description := .jstr (pystr "Hi"), player_limit := .jnum 20,
            player_count := .jnum 2,
            players := [.jstr (pystr "Alice"), .jstr (pystr "Bob")],
            version := .jstr (pystr "1.20"), version_id := .jnum 763,
            icon := .jstr [] } := by
  rfl


set_option maxRecDepth 100000 in
/-- End-to-end evaluation of the model: against a server that answers each
connection with pong packets, `ping` completes the whole protocol and records
the latency `clock 2 - clock 1 = 1`. This exercises every definition of the
client once by reduction. -/
theorem ping_wGood_eval :
    ping 32 wGood (pystr "localhost") 25565 = some (.ok outW2, trW2) := by
  rfl


set_option maxRecDepth 100000 in
/-- End-to-end evaluation of the model on a host of exactly 32767 one-byte
characters against a server that sends nothing: the host passes the length
check, the handshake is sent, and the run fails only with the `TypeError` of
reading the exhausted stream. -/
theorem ping_hostAccepted_eval :
    ping 8 wEmpty (List.replicate 32767 97) 25565 =
      some (.error .typeError, [.connectA, .sendA, .sendA, .sendA, .recvA]) := by
  have hlen : ¬ ((List.replicate 32767 97).length > 32767) := by
    rw [List.length_replicate]
    omega
  simp only [ping, wEmpty, if_true, hlen, if_false]
  rfl

/-- On an exhausted stream `recv` returns `b""` forever, so the payload loop of
`read_packet` makes no progress and runs out of any amount of fuel. -/
theorem recvLoop_exhausted (need : Int) : ∀ (fuel : Nat) (data : List Nat),
    (data.length : Int) < need → recvLoop fuel need data [] = none := by
  intro fuel
  induction fuel with
  | zero => intro data h; simp [recvLoop, h]
  | succ n ih =>
    intro data h
    rw [recvLoop]
    simp only [h, if_pos, sockRecv]
    simpa using ih data h


/-- A final result carrying an exception never equals one carrying a normal
return value. -/
theorem errPair_ne_okPair {e : PyErr} {o : Outcome} {t1 t2 : List NetEvent}
    (h : (some (Except.error e, t1) : Option (Except PyErr Outcome × List NetEvent)) =
      some (Except.ok o, t2)) : False :=
  Except.noConfusion (congrArg (fun p => p.1) (Option.some.inj h))

/-- Two equal normal final results carry the same outcome. -/
theorem okPair_outcome_eq {a b : Outcome} {t1 t2 : List NetEvent}
    (h : (some (Except.ok a, t1) : Option (Except PyErr Outcome × List NetEvent)) =
      some (Except.ok b, t2)) : a = b :=
  Except.ok.inj (congrArg (fun p => p.1) (Option.some.inj h))

/-- C5: the claim says `read_packet` signals a framing error when the stream
closes before `payload_length` bytes arrive. In the source the recv loop
`while len(data) < data_length: data += sock.recv(...)` never terminates on a
closed stream, because `recv` returns `b""` forever and `data` stops growing.
On the stream `06 | 00 | 01 02 03` (declared payload 5, only 3 bytes delivered
before EOF) `read_packet` fails to terminate: it exhausts every fuel bound. -/
theorem c5_truncated_stream_diverges :
    ∀ fuel : Nat, read_packet fuel [[6], [0], [1, 2, 3]] = none := by
  intro fuel
  have h1 : decode_varint_sock [[6], [0], [1, 2, 3]] = .ok (6, [[0], [1, 2, 3]]) := rfl
  have h2 : decode_varint_sock [[0], [1, 2, 3]] = .ok (0, [[1, 2, 3]]) := rfl
  simp only [read_packet, h1, h2]
  have h3 : ∀ n, recvLoop n 5 [] [[1, 2, 3]] = none := by
    intro n
    cases n with
    | zero => rfl
    | succ m =>
      have hstep : recvLoop (m + 1) 5 [] [[1, 2, 3]] = recvLoop m 5 [1, 2, 3] [] := rfl
      rw [hstep]
      exact recvLoop_exhausted 5 m [1, 2, 3] (by decide)
  simp [encode_varint, encodeLoop, h3]


/-- C6 counterexample: on the stream `00 | 00` the declared packet length 0 is
smaller than the 1-byte encoding of the packet id, so the computed
`payload_length` is negative — yet `read_packet` returns the normal result
`(0, b"")` instead of signaling a framing error, refuting the claim. -/
theorem c6_counterexample :
    ((0 : Int) - ((encode_varint 0).length : Int) < 0) ∧
    read_packet 5 [[0], [0]] = some (.ok ((0, []), [])) := by
  constructor
  · decide
  · rfl


/-- C6 (amended): when the decoded packet length is smaller than the length of
the encoded packet id — i.e. the computed `payload_length` is negative — the
recv loop `while len(data) < data_length` is skipped (0 is not less than a
negative number) and `read_packet` returns `(packet_id, b"")` normally; no
error of any kind is signaled. -/
theorem c6_negative_length_returns_empty (s s1 s2 : List (List Nat)) (fuel len pid : Nat)
    (h1 : decode_varint_sock s = .ok (len, s1))
    (h2 : decode_varint_sock s1 = .ok (pid, s2))
    (h3 : (len : Int) < ((encode_varint (pid : Int)).length : Int)) :
    read_packet fuel s = some (.ok ((pid, []), s2)) := by
  have hlt : ¬ ((encode_varint (pid : Int)).length < len) := by omega
  simp only [read_packet, h1, h2]
  rw [recvLoop.eq_def]
  simp [hlt]


/-- C6 witness: the amended theorem applied to the stream `00 | 00`. -/
theorem c6_witness : read_packet 0 [[0], [0]] = some (.ok ((0, []), [])) :=
  c6_negative_length_returns_empty [[0], [0]] [[0]] [] 0 0 0 rfl rfl (by decide)


/-- C4 counterexample: a host of 16384 two-byte characters is 32768 UTF-8 bytes,
over the claimed limit, yet `ping` does not reject it at all: the length check
compares the character count (16384) against 32767, the handshake containing the
host is sent (three send events after the connect), and the run fails only with
the `TypeError` of reading the empty test stream — no `OverflowError`, and
network I/O has taken place. This refutes the claim that over-32767-UTF-8-byte
hosts are rejected before any network I/O. -/
theorem c4_counterexample :
    32767 < utf8ByteLen (List.replicate 16384 233) ∧
    ping 8 { wEmpty with connect2 := true } (List.replicate 16384 233) 25565 =
      some (.error .typeError, [.connectA, .sendA, .sendA, .sendA, .recvA]) := by
  constructor
  · have h2 : utf8Len 233 = 2 := rfl
    rw [utf8ByteLen, List.map_replicate, h2, List.sum_replicate, smul_eq_mul]
    omega
  · have hlen : ¬ ((List.replicate 16384 233).length > 32767) := by
      rw [List.length_replicate]
      omega
    simp only [ping, wEmpty, if_true, hlen, if_false]
    rfl


/-- C4 (amended): the host-length check counts characters, not UTF-8 bytes, and
runs only after the connection attempt. If the first connection succeeds and the
host exceeds 32767 characters, `ping` raises `OverflowError` with the connection
attempt already in the trace but before any handshake data is sent; if the first
connection fails, `ping` returns the connection failure without the host ever
being checked; and a host of exactly 32767 (one-byte) characters passes the
check — the run below proceeds to send the handshake. -/
theorem c4_host_check_after_connect (fuel : Nat) (w : World) (host : List Nat) (port : Nat) :
    (w.connect1 = true → 32767 < host.length →
      ping fuel w host port = some (.error .hostTooLarge, [.connectA]))
    ∧ (w.connect1 = false →
      ping fuel w host port =
        some (.ok { success := false, err := some (), latency := none, status := none },
              [.connectA]))
    ∧ ping 8 wEmpty (List.replicate 32767 97) 25565 =
        some (.error .typeError, [.connectA, .sendA, .sendA, .sendA, .recvA]) := by
  refine ⟨?_, ?_, ?_⟩
  · intro h1 h2
    simp [ping, h1, h2]
  · intro h1
    simp [ping, h1]
  · exact ping_hostAccepted_eval


/-- C4 witness: the amended theorem applied at a 32768-character host (rejected
with only the connection attempt in the trace) and at a failing first
connection (no rejection at all). -/
theorem c4_witness :
    ping 8 wEmpty (List.replicate 32768 97) 25565 = some (.error .hostTooLarge, [.connectA]) ∧
    ping 8 { wEmpty with connect1 := false } (List.replicate 32768 97) 25565 =
      some (.ok { success := false, err := some (), latency := none, status := none },
            [.connectA]) := by
  constructor
  · exact (c4_host_check_after_connect 8 wEmpty (List.replicate 32768 97) 25565).1 rfl
      (by rw [List.length_replicate]; omega)
  · exact (c4_host_check_after_connect 8 { wEmpty with connect1 := false }
      (List.replicate 32768 97) 25565).2.1 rfl


/-- C8: the second (latency-refinement) connection is best-effort. If it fails
to open, `ping` keeps no latency value and still returns success (first
conjunct). It is the only blanket-suppressed failure: once the second connection
is open, any read error propagates, so a successful return with the second
connection open always carries a latency, and that latency is
`clock 2 - clock 1` — the elapsed time of the second round alone, not involving
the first round's timer (`clock 0`). -/
theorem c8_second_connection_best_effort (fuel : Nat) (w : World) (host : List Nat) (port : Nat) :
    (w.connect1 = true → w.connect2 = false → ∀ o tr,
        ping fuel w host port = some (.ok o, tr) → o.success = true ∧ o.latency = none)
    ∧ (w.connect1 = true → w.connect2 = true → ∀ o tr,
        ping fuel w host port = some (.ok o, tr) →
          o.success = true ∧ o.latency = some (w.clock 2 - w.clock 1)) := by
  constructor
  · intro h1 h2 o tr hp
    simp only [ping, h1] at hp
    by_cases hl : host.length > 32767
    · rw [if_pos hl] at hp
      exact (errPair_ne_okPair hp).elim
    · rw [if_neg hl] at hp
      cases hr1 : readAndHandle fuel none w.stream1 with
      | none => simp only [hr1] at hp; exact Option.noConfusion hp
      | some r1 =>
        cases r1 with
        | error e => simp only [hr1] at hp; exact (errPair_ne_okPair hp).elim
        | ok p1 =>
          obtain ⟨st, s1⟩ := p1
          simp only [hr1] at hp
          cases hr2 : readAndHandle fuel st s1 with
          | none => simp only [hr2] at hp; exact Option.noConfusion hp
          | some r2 =>
            cases r2 with
            | error e => simp only [hr2] at hp; exact (errPair_ne_okPair hp).elim
            | ok p2 =>
              obtain ⟨st2, s2⟩ := p2
              simp only [hr2, pingRest, h2] at hp
              have ho := okPair_outcome_eq hp
              subst ho
              exact ⟨rfl, rfl⟩
  · intro h1 h2 o tr hp
    simp only [ping, h1] at hp
    by_cases hl : host.length > 32767
    · rw [if_pos hl] at hp
      exact (errPair_ne_okPair hp).elim
    · rw [if_neg hl] at hp
      cases hr1 : readAndHandle fuel none w.stream1 with
      | none => simp only [hr1] at hp; exact Option.noConfusion hp
      | some r1 =>
        cases r1 with
        | error e => simp only [hr1] at hp; exact (errPair_ne_okPair hp).elim
        | ok p1 =>
          obtain ⟨st, s1⟩ := p1
          simp only [hr1] at hp
          cases hr2 : readAndHandle fuel st s1 with
          | none => simp only [hr2] at hp; exact Option.noConfusion hp
          | some r2 =>
            cases r2 with
            | error e => simp only [hr2] at hp; exact (errPair_ne_okPair hp).elim
            | ok p2 =>
              obtain ⟨st2, s2⟩ := p2
              simp only [hr2, pingRest, h2] at hp
              cases hr3 : read_packet fuel w.stream2 with
              | none => simp only [hr3] at hp; exact Option.noConfusion hp
              | some r3 =>
                cases r3 with
                | error e => simp only [hr3] at hp; exact (errPair_ne_okPair hp).elim
                | ok p3 =>
                  simp only [hr3] at hp
                  have ho := okPair_outcome_eq hp
                  subst ho
                  exact ⟨rfl, rfl⟩

/-- C8 witness: on `wNoC2` (second connection fails) the completed run is a
success with no latency; on `wGood` (second round succeeds) the recorded
latency is `clock 2 - clock 1`. -/
theorem c8_witness :
    outW1.success = true ∧ outW1.latency = none ∧
    outW2.latency = some (wGood.clock 2 - wGood.clock 1) := by
  refine ⟨?_, ?_, ?_⟩
  · exact ((c8_second_connection_best_effort 32 wNoC2 (pystr "localhost") 25565).1
      rfl rfl outW1 trW1 rfl).1
  · exact ((c8_second_connection_best_effort 32 wNoC2 (pystr "localhost") 25565).1
      rfl rfl outW1 trW1 rfl).2
  · exact ((c8_second_connection_best_effort 32 wGood (pystr "localhost") 25565).2
      rfl rfl outW2 trW2 rfl).2


/-- C10: when the parsed document reports a nonzero `players.online` but its
`players` object has no `sample` key (and the lookups before it succeed), the
extraction raises `KeyError` — a lookup error, never a silently produced list
(first part). When `players.online` is 0, the resulting player sample is the
empty list regardless of what the `sample` field contains, no hypothesis on it
being needed (second part). -/
theorem c10_sample_policy :
    (∀ (sf df pf : List (List Nat × JVal)) (dt pm : JVal) (n : Int),
      dictGet (pystr "description") sf = some (.jobj df) →
      dictGet (pystr "text") df = some dt →
      dictGet (pystr "players") sf = some (.jobj pf) →
      dictGet (pystr "max") pf = some pm →
      dictGet (pystr "online") pf = some (.jnum n) → n ≠ 0 →
      dictGet (pystr "sample") pf = none →
      extractStatus (.jobj sf) = .error .keyError)
    ∧ (∀ (sf df pf vf : List (List Nat × JVal)) (dt pm vn vp : JVal),
      dictGet (pystr "description") sf = some (.jobj df) →
      dictGet (pystr "text") df = some dt →
      dictGet (pystr "players") sf = some (.jobj pf) →
      dictGet (pystr "max") pf = some pm →
      dictGet (pystr "online") pf = some (.jnum 0) →
      dictGet (pystr "version") sf = some (.jobj vf) →
      dictGet (pystr "name") vf = some vn →
      dictGet (pystr "protocol") vf = some vp →
      extractStatus (.jobj sf) =
        .ok { description := dt, player_limit := pm, player_count := .jnum 0, players := [],
              version := vn, version_id := vp,
              icon := (dictGet (pystr "favicon") sf).getD (.jstr []) }) := by
  constructor
  · intro sf df pf dt pm n h1 h2 h3 h4 h5 hn h6
    simp [extractStatus, getItem, h1, h2, h3, h4, h5, h6, pyTruthy, hn]
  · intro sf df pf vf dt pm vn vp h1 h2 h3 h4 h5 h6 h7 h8
    simp [extractStatus, getItem, h1, h2, h3, h4, h5, h6, h7, h8, pyTruthy]


/-- C10 witness: the theorem applied to a document with `online = 2` and no
`sample` key (KeyError) and to a document with `online = 0` and a non-list
`sample` (empty player list, sample untouched). -/
theorem c10_witness :
    extractStatus (.jobj c10doc1) = .error .keyError ∧
    extractStatus (.jobj c10doc2) =
      .ok { description := .jstr (pystr "Hi"), player_limit := .jnum 20, player_count := .jnum 0,
            players := [], version := .jstr (pystr "1.20"), version_id := .jnum 763,
            icon := .jstr [] } := by
  constructor
  · exact c10_sample_policy.1 c10doc1 [(pystr "text", .jstr (pystr "Hi"))]
      [(pystr "max", .jnum 20), (pystr "online", .jnum 2)] (.jstr (pystr "Hi")) (.jnum 20) 2
      rfl rfl rfl rfl rfl (by decide) rfl
  · exact c10_sample_policy.2 c10doc2 [(pystr "text", .jstr (pystr "Hi"))]
      [(pystr "max", .jnum 20), (pystr "online", .jnum 0), (pystr "sample", .jnum 7)]
      [(pystr "name", .jstr (pystr "1.20")), (pystr "protocol", .jnum 763)]
      (.jstr (pystr "Hi")) (.jnum 20) (.jstr (pystr "1.20")) (.jnum 763)
      rfl rfl rfl rfl rfl rfl rfl rfl

/-- C1: the claim says decoding `encode_varint(v)` yields `v` back for every
int32 `v` including negatives, via signed reinterpretation. In the source,
`encode_varint(-1)` is the 5-byte string `ff ff ff ff 0f`, and `decode_varint`
raises `OverflowError` upon reading any 5th byte (its `n_bytes > 4` check fires
before the continuation bit of the 5th byte is examined), so the round trip
fails at `v = -1`; moreover `decode_varint` contains no signed reinterpretation
at all. This theorem evaluates the code at the failing input. -/
theorem c1_roundtrip_neg1_overflows :
    encode_varint (-1) = [255, 255, 255, 255, 15] ∧
    decode_varint (encode_varint (-1)) = .error .overflow := by
  refine ⟨encode_varint_neg1, ?_⟩
  rw [encode_varint_neg1]
  rfl


/-- C2: the claim says a well-formed sequence of at most 5 bytes whose final
byte has the continuation bit clear decodes without error. In the source the
`n_bytes > 4` check fires as soon as a 5th byte has been read, before the loop
condition re-examines its continuation bit, so the well-formed 5-byte sequence
`80 80 80 80 00` (value 0) raises `OverflowError`. The second conjunct shows the
part of the claim that does hold (five continuation bytes raise the error), the
third that 4-byte well-formed sequences decode fine. -/
theorem c2_five_byte_boundary :
    decode_varint [128, 128, 128, 128, 0] = .error .overflow ∧
    decode_varint [128, 128, 128, 128, 128, 0] = .error .overflow ∧
    decode_varint [255, 255, 255, 127] = .ok (268435455, []) := by
  refine ⟨rfl, rfl, rfl⟩


/-- C3: the claim says `read_packet` inverts `write_packet` for every int32
packet id. For `packet_id = -1` (empty payload) the written bytes are
`05 ff ff ff ff 0f`; reading them back decodes the length 5 but raises
`OverflowError` on the 5th byte of the packet-id VarInt, for any fuel, instead
of returning `(-1, b"")`. This theorem evaluates the code at the failing input. -/
theorem c3_framing_roundtrip_neg1_overflows :
    ∀ fuel : Nat, read_packet fuel [write_packet [] (-1)] = some (.error .overflow) := by
  intro fuel
  rw [write_packet_neg1_nil]
  rfl


/-- C7 counterexample: the claim says the last byte of `encode_varint(-1)` has
value bits `0x7f`. The last byte is `0x0f` (the top four bits of the 32-bit
two's-complement value), whose value bits are 15, not 127. -/
theorem c7_counterexample : ¬ ((encode_varint (-1)).getLast?.getD 0 &&& 127 = 127) := by
  decide


/-- C7 (amended): `encode_varint 0 = [0x00]`, and `encode_varint (-1)` is exactly
the 5 bytes `ff ff ff ff 0f` — every byte but the last has the continuation bit
set, and the last byte has the continuation bit clear and value bits `0x0f`
(not `0x7f` as the claim stated). -/
theorem c7_encode_boundary :
    encode_varint 0 = [0] ∧
    encode_varint (-1) = [255, 255, 255, 255, 15] ∧
    (([255, 255, 255, 255] : List Nat).all fun b => b &&& 128 == 128) = true ∧
    15 &&& 128 = 0 ∧ 15 &&& 127 = 15 := by
  refine ⟨rfl, rfl, ?_, ?_, ?_⟩ <;> decide

